import Mathlib

/-!
Shallow embedding of the scheduled-post conflict resolution and dispatch
engine of the TG_bot repository (src/database.py, src/pending_post_processor.py,
src/bot.py), together with theorems settling the frozen claims about it.

Modelling conventions:
* Instants are integers. For the database layer (database.py) an instant is a
  number of seconds, so that the minute-based gap comparison
  time_diff_minutes < min_gap becomes diff_seconds < min_gap * 60 (exact, since
  Python divides by 60 over the reals). For the time-input layer (bot.py) an
  instant is a number of microseconds, matching datetime precision.
* MongoDB documents become structures; a collection becomes a list in insertion
  order; find with a sort becomes a filter followed by an explicit sort;
  update_one and delete_one act on the first matching element.
* A raised Python exception becomes an explicit error value carried in the
  result; the exception message is kept as a String because the code classifies
  errors by substring tests on the message.
* The Telegram bot send calls are an external collaborator: they are modelled
  by an environment function giving, for each successive raw send call (indexed
  by a counter) with its content and markup, either a delivered message id or
  an error message.
-/

namespace TGBot

/-- Status values the code actually writes for a pending post: database.py
only ever stores the strings "pending" (save_pending_post) and "sent"
(mark_pending_post_sent). -/
inductive PostStatus where
  | pending
  | sent
deriving DecidableEq, Repr

/-- One server_config document, as created by Database.get_server_config
(database.py lines 136-154). -/
structure ServerConfig where
  server_id : Nat
  server_name : String
  footer_text : String
  button1_text : String
  button1_url : String
  button2_text : String
  button2_url : String
  min_time_gap : Int
  enabled : Bool
  posting_enabled : Bool
deriving DecidableEq, Repr

/-- The default configuration document inserted by get_server_config when a
server has none. -/
def defaultServerConfig (server_id : Nat) : ServerConfig :=
  { server_id := server_id
    server_name := "Server"
    footer_text := ""
    button1_text := ""
    button1_url := ""
    button2_text := ""
    button2_url := ""
    min_time_gap := 30
    enabled := true
    posting_enabled := true }

/-- One posts document, as created by Database.save_post. -/
structure PostRecord where
  server_id : Nat
  user_id : Nat
  message_text : String
  photo_id : Option String
  channel_message_id : Option Nat
  posted_at : Int
deriving DecidableEq, Repr

/-- One pending_posts document, as created by Database.save_pending_post.
The id stands for the MongoDB ObjectId. -/
structure PendingPost where
  id : Nat
  server_id : Nat
  user_id : Nat
  message_text : String
  photo_id : Option String
  caption : Option String
  scheduled_time : Int
  created_at : Int
  status : PostStatus
  sent_at : Option Int
deriving DecidableEq, Repr

/-- The database state: the three collections this core reads and writes. -/
structure DBState where
  configs : List ServerConfig
  posts : List PostRecord
  pending_posts : List PendingPost
deriving DecidableEq, Repr

/-- Database.get_server_config: the stored document for the server, or the
default one (the insertion side effect of the default is irrelevant to every
read modelled here and is omitted). -/
def get_server_config (s : DBState) (server_id : Nat) : ServerConfig :=
  (s.configs.find? (fun c => c.server_id == server_id)).getD (defaultServerConfig server_id)

/-- Database.get_last_post: the posts document for the server with the
greatest posted_at (find_one with sort posted_at descending). Ties are broken
towards the earlier document, a choice MongoDB leaves unspecified. -/
def get_last_post (s : DBState) (server_id : Nat) : Option PostRecord :=
  (s.posts.filter (fun p => p.server_id == server_id)).foldl
    (fun acc p =>
      match acc with
      | none => some p
      | some q => if q.posted_at < p.posted_at then some p else some q)
    none

/-- Insert a pending post into a list kept ascending by scheduled_time. -/
def insertByTime (p : PendingPost) : List PendingPost → List PendingPost
  | [] => [p]
  | q :: qs =>
    if p.scheduled_time ≤ q.scheduled_time then p :: q :: qs
    else q :: insertByTime p qs

/-- Ascending sort by scheduled_time, modelling the MongoDB sort
(scheduled_time, 1); the order among equal instants is unspecified there and
fixed arbitrarily here. -/
def sortByTime (l : List PendingPost) : List PendingPost :=
  l.foldr insertByTime []

/-- Database.get_pending_posts_by_server: pending documents of one server,
ascending by scheduled_time. -/
def get_pending_posts_by_server (s : DBState) (server_id : Nat) : List PendingPost :=
  sortByTime (s.pending_posts.filter
    (fun p => p.server_id == server_id && p.status == PostStatus.pending))

/-- Database.get_pending_posts_ready: pending documents whose scheduled_time
has been reached, ascending by scheduled_time. -/
def get_pending_posts_ready (s : DBState) (now : Int) : List PendingPost :=
  sortByTime (s.pending_posts.filter
    (fun p => p.status == PostStatus.pending && decide (p.scheduled_time ≤ now)))

/-- The loop body of Database.check_time_conflict over the pending posts of
the server: the first candidate closer than the gap decides the conflict and
the suggestion is that candidate plus the gap. Times in seconds, gap in
minutes. -/
def findConflict (gap : Int) (proposed : Int) : List PendingPost → Option Int
  | [] => none
  | p :: rest =>
    if |proposed - p.scheduled_time| < gap * 60 then some (p.scheduled_time + gap * 60)
    else findConflict gap proposed rest

/-- Database.check_time_conflict: first every pending post of the server in
ascending scheduled_time order, then the last delivered post; the result is
(True, None) when the proposed instant is acceptable and (False, suggestion)
on the first conflicting candidate. -/
def check_time_conflict (s : DBState) (server_id : Nat) (proposed : Int) :
    Bool × Option Int :=
  let gap := (get_server_config s server_id).min_time_gap
  match findConflict gap proposed (get_pending_posts_by_server s server_id) with
  | some next => (false, some next)
  | none =>
    match get_last_post s server_id with
    | some lp =>
      if |proposed - lp.posted_at| < gap * 60 then (false, some (lp.posted_at + gap * 60))
      else (true, none)
    | none => (true, none)

/-- Database.save_pending_post: append a new pending document. The id stands
for the fresh ObjectId MongoDB assigns. -/
def save_pending_post (s : DBState) (id : Nat) (server_id user_id : Nat)
    (message_text : String) (scheduled_time : Int) (photo_id : Option String)
    (caption : Option String) (now : Int) : DBState :=
  { s with pending_posts := s.pending_posts ++
      [{ id := id
         server_id := server_id
         user_id := user_id
         message_text := message_text
         photo_id := photo_id
         caption := caption
         scheduled_time := scheduled_time
         created_at := now
         status := PostStatus.pending
         sent_at := none }] }

/-- update_one semantics: rewrite the first element satisfying the filter. -/
def updateFirst (f : PendingPost → Bool) (g : PendingPost → PendingPost) :
    List PendingPost → List PendingPost
  | [] => []
  | x :: xs => if f x then g x :: xs else x :: updateFirst f g xs

/-- Database.mark_pending_post_sent: set status to sent and record sent_at on
the document with the given id. -/
def mark_pending_post_sent (s : DBState) (id : Nat) (now : Int) : DBState :=
  let upd := updateFirst (fun p => p.id == id)
    (fun p => { p with status := PostStatus.sent, sent_at := some now })
    s.pending_posts
  { s with pending_posts := upd }

/-- delete_one semantics: remove the first element satisfying the filter. -/
def deleteFirst (f : PendingPost → Bool) : List PendingPost → List PendingPost
  | [] => []
  | x :: xs => if f x then xs else x :: deleteFirst f xs

/-- Database.delete_pending_post: remove the document with the given id.
The record is deleted outright; no status is written. -/
def delete_pending_post (s : DBState) (id : Nat) : DBState :=
  { s with pending_posts := deleteFirst (fun p => p.id == id) s.pending_posts }

/-- Database.save_post: append a post history record. -/
def save_post (s : DBState) (server_id user_id : Nat) (message_text : String)
    (channel_message_id : Option Nat) (photo_id : Option String) (now : Int) : DBState :=
  { s with posts := s.posts ++
      [{ server_id := server_id
         user_id := user_id
         message_text := message_text
         photo_id := photo_id
         channel_message_id := channel_message_id
         posted_at := now }] }

/-- A reply markup: the button rows the code builds, each row one
(label, url) button. -/
def Markup := List (String × String)
deriving DecidableEq, Repr

/-- Outcome of one raw bot.send_message / bot.send_photo call: a delivered
message id, or an exception whose message is kept for classification. -/
inductive SendOutcome where
  | ok (message_id : Nat)
  | err (msg : String)
deriving DecidableEq, Repr

/-- The Telegram delivery collaborator: the outcome of the raw send call with
a given call counter, content string and optional markup. -/
def DeliveryEnv := Nat → String → Option Markup → SendOutcome

/-- One raw send attempt as observed at the collaborator boundary: the content
and the markup passed. -/
def Attempt := String × Option Markup
deriving DecidableEq, Repr

/-- Result of send_to_channel: a delivered message id, None because no channel
is configured, or a propagated exception message. -/
inductive SendResult where
  | sent (message_id : Nat)
  | noChannel
  | raised (msg : String)
deriving DecidableEq, Repr

/-- Whether the second character list starts with the first. -/
def charStartsWith : List Char → List Char → Bool
  | [], _ => true
  | _ :: _, [] => false
  | a :: as, b :: bs => a == b && charStartsWith as bs

/-- Whether the first character list occurs as a contiguous run in the
second. -/
def charHasSub (pat : List Char) : List Char → Bool
  | [] => charStartsWith pat []
  | b :: bs => charStartsWith pat (b :: bs) || charHasSub pat bs

/-- Substring test, modelling the Python operator in on strings. -/
def strContains (s pat : String) : Bool := charHasSub pat.data s.data

/-- Lowercasing, modelling str.lower. -/
def strLower (s : String) : String := String.mk (s.data.map Char.toLower)

/-- Whitespace stripping from both ends, modelling str.strip. -/
def strStrip (s : String) : String :=
  String.mk (((s.data.dropWhile Char.isWhitespace).reverse.dropWhile Char.isWhitespace).reverse)

/-- The error classification used by the retry ladders: both substrings
"invalid" and "url" occur in the lowercased message. -/
def isInvalidUrlError (msg : String) : Bool :=
  strContains (strLower msg) "invalid" && strContains (strLower msg) "url"

/-- The chat-not-found message test used before rewrapping the exception. -/
def isChatNotFound (msg : String) : Bool :=
  strContains msg "Chat not found" || strContains (strLower msg) "chat not found"

/-- The helpful message the code raises in place of a chat-not-found error
(text abbreviated; no claim inspects it beyond its classification, and it
contains neither the substring "invalid" nor "url"). -/
def channelNotFoundText : String :=
  "Channel not found. Please check the channel ID and the bot admin rights"

/-- PendingPostProcessor.get_channel_id / TelegramBot._get_channel_id: the
entry of config.CHANNEL_IDS at index server_id - 1 when that index is in
range (the string-format normalization of the entry is identity here), None
otherwise, in particular when the list is empty. -/
def get_channel_id (channel_ids : List String) (server_id : Nat) : Option String :=
  if h : 1 ≤ server_id ∧ server_id - 1 < channel_ids.length then
    some (channel_ids.get ⟨server_id - 1, h.2⟩)
  else none

/-- The inner try/except ladder shared by PendingPostProcessor.send_to_channel
and TelegramBot._send_post_to_channel once a channel id is resolved: one send
with the given markup; on an invalid-url-classified error one retry with the
same markup unchanged; if that also fails, a final send with no markup whose
exception, if any, propagates; a non-invalid-url error propagates at once,
rewrapped when it is a chat-not-found error. Returns the result, the raw
attempts made, and the advanced call counter. -/
def sendLadder (env : DeliveryEnv) (k : Nat) (content : String)
    (markup : Option Markup) : SendResult × List Attempt × Nat :=
  match env k content markup with
  | SendOutcome.ok mid => (SendResult.sent mid, [(content, markup)], k + 1)
  | SendOutcome.err e =>
    if isInvalidUrlError e then
      match env (k + 1) content markup with
      | SendOutcome.ok mid =>
        (SendResult.sent mid, [(content, markup), (content, markup)], k + 2)
      | SendOutcome.err _ =>
        match env (k + 2) content none with
        | SendOutcome.ok mid =>
          (SendResult.sent mid, [(content, markup), (content, markup), (content, none)], k + 3)
        | SendOutcome.err e3 =>
          (SendResult.raised e3, [(content, markup), (content, markup), (content, none)], k + 3)
    else if isChatNotFound e then
      (SendResult.raised channelNotFoundText, [(content, markup)], k + 1)
    else
      (SendResult.raised e, [(content, markup)], k + 1)

/-- PendingPostProcessor.send_to_channel: resolve the channel for the server
(returning None without any send when there is none) and run the ladder. -/
def send_to_channel (env : DeliveryEnv) (k : Nat) (channel_ids : List String)
    (server_id : Nat) (content : String) (markup : Option Markup) :
    SendResult × List Attempt × Nat :=
  match get_channel_id channel_ids server_id with
  | none => (SendResult.noChannel, [], k)
  | some _ => sendLadder env k content markup

/-- The content rendering of send_pending_post and _send_post_to_channel: the
footer is appended after a blank line when non-empty; with no base text the
footer alone is the content. -/
def renderContent (message_text footer : String) : String :=
  if footer ≠ "" then
    (if message_text ≠ "" then message_text ++ "\n\n" ++ footer else footer)
  else message_text

/-- The button construction of send_pending_post and _send_post_to_channel:
each slot contributes one row exactly when both its stripped label and
stripped url are non-empty; no url validation happens here. -/
def buildButtons (cfg : ServerConfig) : Markup :=
  (if strStrip cfg.button1_text ≠ "" ∧ strStrip cfg.button1_url ≠ "" then
    [(strStrip cfg.button1_text, strStrip cfg.button1_url)] else []) ++
  (if strStrip cfg.button2_text ≠ "" ∧ strStrip cfg.button2_url ≠ "" then
    [(strStrip cfg.button2_text, strStrip cfg.button2_url)] else [])

/-- Outcome of the outer delivery phase of send_pending_post: either the
channel_message_id obtained (None when no channel is configured), or the
exception that escapes. -/
inductive DispatchSend where
  | delivered (channel_message_id : Option Nat)
  | failed (msg : String)
deriving DecidableEq, Repr

/-- The outer try/except ladder of send_pending_post around send_to_channel:
one call; on an invalid-url-classified exception a second call with the same
markup, then a last-resort call with no markup whose exception propagates;
any other exception propagates at once. -/
def outerSendLadder (env : DeliveryEnv) (k : Nat) (channel_ids : List String)
    (server_id : Nat) (content : String) (markup : Option Markup) :
    DispatchSend × List Attempt × Nat :=
  match send_to_channel env k channel_ids server_id content markup with
  | (SendResult.sent mid, a1, k1) => (DispatchSend.delivered (some mid), a1, k1)
  | (SendResult.noChannel, a1, k1) => (DispatchSend.delivered none, a1, k1)
  | (SendResult.raised e, a1, k1) =>
    if isInvalidUrlError e then
      match send_to_channel env k1 channel_ids server_id content markup with
      | (SendResult.sent mid, a2, k2) => (DispatchSend.delivered (some mid), a1 ++ a2, k2)
      | (SendResult.noChannel, a2, k2) => (DispatchSend.delivered none, a1 ++ a2, k2)
      | (SendResult.raised _, a2, k2) =>
        match send_to_channel env k2 channel_ids server_id content none with
        | (SendResult.sent mid, a3, k3) =>
          (DispatchSend.delivered (some mid), a1 ++ a2 ++ a3, k3)
        | (SendResult.noChannel, a3, k3) =>
          (DispatchSend.delivered none, a1 ++ a2 ++ a3, k3)
        | (SendResult.raised e3, a3, k3) =>
          (DispatchSend.failed e3, a1 ++ a2 ++ a3, k3)
    else (DispatchSend.failed e, a1, k1)

/-- What one call of PendingPostProcessor.send_pending_post did: the database
state after it, the exception that escaped it if any, the channel message id
it obtained, the raw channel send attempts it made, and whether the author
notification was attempted (its own failures are swallowed). -/
structure DispatchResult where
  state : DBState
  raisedMsg : Option String
  channelMessageId : Option Nat
  attempts : List Attempt
  notifiedUser : Bool
deriving DecidableEq, Repr

/-- The success tail of send_pending_post: notify the author, append the post
record with the channel message id obtained, and mark the pending post sent. -/
def dispatchFinalize (s : DBState) (p : PendingPost) (now : Int)
    (mid : Option Nat) (atts : List Attempt) : DispatchResult :=
  let s1 := save_post s p.server_id p.user_id p.message_text mid p.photo_id now
  let s2 := mark_pending_post_sent s1 p.id now
  { state := s2
    raisedMsg := none
    channelMessageId := mid
    attempts := atts
    notifiedUser := true }

/-- The full content send_pending_post renders: base text with the
destination footer appended. -/
def dispatchContent (s : DBState) (p : PendingPost) : String :=
  renderContent p.message_text (get_server_config s p.server_id).footer_text

/-- The reply markup send_pending_post builds from the destination button
slots: None when no slot contributes a button. -/
def dispatchMarkup (s : DBState) (p : PendingPost) : Option Markup :=
  let btns := buildButtons (get_server_config s p.server_id)
  if btns.isEmpty then none else some btns

/-- PendingPostProcessor.send_pending_post: render the content and markup from
the server configuration, run the outer delivery ladder, and on delivery (a
message id, or None when no channel is configured) notify the author, record
the post and mark the item sent; an exhausted delivery failure escapes with
the database untouched. There is no posting_enabled check on this path. -/
def send_pending_post (env : DeliveryEnv) (k : Nat) (channel_ids : List String)
    (now : Int) (s : DBState) (p : PendingPost) : DispatchResult × Nat :=
  match outerSendLadder env k channel_ids p.server_id (dispatchContent s p) (dispatchMarkup s p) with
  | (DispatchSend.delivered mid, atts, kf) => (dispatchFinalize s p now mid atts, kf)
  | (DispatchSend.failed e, atts, kf) =>
    ({ state := s
       raisedMsg := some e
       channelMessageId := none
       attempts := atts
       notifiedUser := false }, kf)

/-- The per-item loop of process_pending_posts: each item is dispatched in
order; an exception from one item is caught and logged (recorded here next to
the item id) and the loop continues with the next item. -/
def processList (env : DeliveryEnv) (channel_ids : List String) (now : Int) :
    DBState → Nat → List PendingPost →
    DBState × List (Nat × Option String) × List Attempt × Nat
  | s, k, [] => (s, [], [], k)
  | s, k, p :: rest =>
    let (r, k1) := send_pending_post env k channel_ids now s p
    let (sf, res, atts, kf) := processList env channel_ids now r.state k1 rest
    (sf, (p.id, r.raisedMsg) :: res, r.attempts ++ atts, kf)

/-- What one dispatch tick did: the database state after it, the outcome per
ready item (None meaning success), and all raw channel send attempts. -/
structure TickResult where
  state : DBState
  results : List (Nat × Option String)
  attempts : List Attempt
deriving DecidableEq, Repr

/-- PendingPostProcessor.process_pending_posts, one tick: fetch the ready
items ascending by target instant and dispatch them sequentially, catching
every per-item exception; nothing is raised out of the tick. -/
def process_pending_posts (env : DeliveryEnv) (k : Nat)
    (channel_ids : List String) (now : Int) (s : DBState) : TickResult × Nat :=
  let ready := get_pending_posts_ready s now
  let (sf, res, atts, kf) := processList env channel_ids now s k ready
  ({ state := sf, results := res, attempts := atts }, kf)

/-- Result of the time-validation phase of handle_text_input for a proposed
posting time: rejected against the last delivered post, rejected against the
check_time_conflict result, or accepted. -/
inductive TimeCheckResult where
  | busyLastPost (nextAvailable : Int)
  | busyConflict (suggested : Option Int)
  | accepted
deriving DecidableEq, Repr

/-- The conflict phase of handle_text_input (bot.py lines 1100-1141), after
the input has been resolved to a proposed UTC instant: when the input was not
the literal "now", first the gap against the last delivered post, then the
check_time_conflict result; both rejections are skipped entirely for "now".
Instants in seconds, gap in minutes. -/
def scheduleTimeCheck (s : DBState) (server_id : Nat) (isNowInput : Bool)
    (proposed : Int) : TimeCheckResult :=
  let gap := (get_server_config s server_id).min_time_gap
  let lastRejection : Option Int :=
    match get_last_post s server_id with
    | some lp =>
      if ¬ isNowInput ∧ |proposed - lp.posted_at| < gap * 60 then
        some (lp.posted_at + gap * 60)
      else none
    | none => none
  match lastRejection with
  | some t => TimeCheckResult.busyLastPost t
  | none =>
    let c := check_time_conflict s server_id proposed
    if c.1 = false ∧ ¬ isNowInput then TimeCheckResult.busyConflict c.2
    else TimeCheckResult.accepted

/-- Microseconds per calendar day; Asia/Kolkata has a fixed UTC offset, so one
calendar day is exactly this long. -/
def usPerDay : Nat := 86400000000

/-- The current instant in display-timezone terms: the civil day index and the
microseconds elapsed within that day (datetime.now precision). -/
def istNowInstant (day micro : Nat) : Nat := day * usPerDay + micro

/-- The bare HH:MM branch of handle_text_input (bot.py lines 1080-1092):
todays date at the given wall-clock time, rolled forward exactly one calendar
day when that instant is not strictly after the current instant. Returns the
resolved display-timezone instant in microseconds. -/
def resolveTimeOnly (day micro hh mm : Nat) : Nat :=
  let proposed := day * usPerDay + (hh * 3600 + mm * 60) * 1000000
  if proposed ≤ istNowInstant day micro then proposed + usPerDay else proposed

/-- Gregorian leap year test, as in datetime. -/
def isLeap (y : Nat) : Bool := y % 4 == 0 && (y % 100 != 0 || y % 400 == 0)

/-- Days in a month of the proleptic Gregorian calendar. -/
def daysInMonth (y mo : Nat) : Nat :=
  if mo == 2 then (if isLeap y then 29 else 28)
  else if mo == 4 || mo == 6 || mo == 9 || mo == 11 then 30
  else 31

/-- The datetime constructor validity check: datetime(year, month, day, ...)
raises ValueError outside these ranges. -/
def validDate (y mo d : Nat) : Bool :=
  1 ≤ y && y ≤ 9999 && 1 ≤ mo && mo ≤ 12 && 1 ≤ d && d ≤ daysInMonth y mo

/-- Days from 1970-01-01 to the given proleptic Gregorian date (for y ≥ 1),
the day numbering underlying datetime. -/
def daysFromCivil (y mo d : Nat) : Int :=
  let ya := if mo ≤ 2 then y - 1 else y
  let era := ya / 400
  let yoe := ya % 400
  let mp := (mo + 9) % 12
  let doy := (153 * mp + 2) / 5 + d - 1
  let doe := yoe * 365 + yoe / 4 - yoe / 100 + doy
  (↑(era * 146097 + doe) : Int) - 719468

/-- The display-timezone instant, in microseconds, of a civil date and
wall-clock time; comparing two aware datetimes in the same fixed-offset
timezone is comparing these numbers. -/
def istCivilInstant (y mo d hh mm : Nat) : Int :=
  daysFromCivil y mo d * (usPerDay : Int) + ((hh * 3600 + mm * 60) * 1000000 : Nat)

/-- The UTC offset of Asia/Kolkata, 5 hours 30 minutes, in microseconds. -/
def istOffsetUs : Int := 19800000000

/-- Failures of the explicit date+time branch: an invalid calendar date
(ValueError from datetime) or a past date+time. -/
inductive TimeParseError where
  | invalidDate
  | pastTime
deriving DecidableEq, Repr

/-- The DD/MM HH:MM and DD/MM/YYYY HH:MM branch of handle_text_input (bot.py
lines 1023-1057), after the regex match: build the date (ValueError when
invalid), reject when it is strictly before the current instant, otherwise
convert to UTC. now is the current display-timezone instant in microseconds;
the year argument is the parsed year or, when omitted, the current year. -/
def parseDateTimeInput (now : Int) (d mo y hh mm : Nat) : Except TimeParseError Int :=
  if validDate y mo d then
    if istCivilInstant y mo d hh mm < now then Except.error TimeParseError.pastTime
    else Except.ok (istCivilInstant y mo d hh mm - istOffsetUs)
  else Except.error TimeParseError.invalidDate

/-- The reply of the confirm_post callback branch. -/
inductive ConfirmReply where
  | postingDisabled
  | postedNow (channel_message_id : Option Nat)
  | channelError (msg : String)
  | scheduled (pendingId : Nat)
deriving DecidableEq, Repr

/-- What the confirm_post callback did: the database state after it, the reply
shown, and the raw channel send attempts made. -/
structure ConfirmResult where
  state : DBState
  reply : ConfirmReply
  attempts : List Attempt
deriving DecidableEq, Repr

/-- TelegramBot._send_post_to_channel: resolve the channel (None when not
configured), render content and buttons from the server configuration, and
run the same inner ladder as the processor. -/
def sendPostToChannel (env : DeliveryEnv) (k : Nat) (channel_ids : List String)
    (s : DBState) (server_id : Nat) (message_text : String) :
    SendResult × List Attempt × Nat :=
  match get_channel_id channel_ids server_id with
  | none => (SendResult.noChannel, [], k)
  | some _ =>
    let cfg := get_server_config s server_id
    let full := renderContent message_text cfg.footer_text
    let btns := buildButtons cfg
    sendLadder env k full (if btns.isEmpty then none else some btns)

/-- The confirm_post callback branch of handle_callback (bot.py lines
2168-2330), after a server id has been resolved: the posting_enabled gate
first; then, when the time string was "now" or the stored instant has already
passed, an immediate post through _send_post_to_channel with a post record on
success and nothing saved on failure; otherwise a new pending post. The photo
and text branches have the same shape and differ only in which content string
they carry, passed here as content. -/
def confirm_post (env : DeliveryEnv) (k : Nat) (channel_ids : List String)
    (now : Int) (s : DBState) (server_id user_id : Nat) (isNowStr : Bool)
    (scheduled_time : Int) (content : String) (photo_id : Option String)
    (newPendingId : Nat) : ConfirmResult × Nat :=
  if (get_server_config s server_id).posting_enabled = false then
    ({ state := s, reply := ConfirmReply.postingDisabled, attempts := [] }, k)
  else if isNowStr ∨ scheduled_time ≤ now then
    match sendPostToChannel env k channel_ids s server_id content with
    | (SendResult.sent mid, atts, kf) =>
      ({ state := save_post s server_id user_id content (some mid) photo_id now
         reply := ConfirmReply.postedNow (some mid)
         attempts := atts }, kf)
    | (SendResult.noChannel, atts, kf) =>
      ({ state := save_post s server_id user_id content none photo_id now
         reply := ConfirmReply.postedNow none
         attempts := atts }, kf)
    | (SendResult.raised e, atts, kf) =>
      ({ state := s, reply := ConfirmReply.channelError e, attempts := atts }, kf)
  else
    ({ state := save_pending_post s newPendingId server_id user_id content
         scheduled_time photo_id none now
       reply := ConfirmReply.scheduled newPendingId
       attempts := [] }, k)

/-- The delete_pending_ callback branch of handle_callback (bot.py lines
2115-2165): look the pending post up; silently keep the state when it is
absent or the requester neither owns it nor is the admin; otherwise call
Database.delete_pending_post. The Bool reports whether a deletion happened. -/
def handleDeletePendingCallback (s : DBState) (adminId requester pendingId : Nat) :
    DBState × Bool :=
  match s.pending_posts.find? (fun p => p.id == pendingId) with
  | none => (s, false)
  | some post =>
    if post.user_id ≠ requester ∧ requester ≠ adminId then (s, false)
    else (delete_pending_post s pendingId, true)

/-! Concrete fixtures used by witnesses and counterexamples. -/

/-- A delivery collaborator that accepts every send. -/
def envAlwaysOk : DeliveryEnv := fun _ _ _ => SendOutcome.ok 77

/-- A delivery collaborator that fails every send with a transient timeout
message (the message python-telegram-bot uses for its TimedOut error). -/
def envTimedOut : DeliveryEnv := fun _ _ _ => SendOutcome.err "Timed out"

/-- A delivery collaborator that rejects every markup-bearing send with an
invalid-url error and accepts every markup-free send. -/
def envInvalidUrlWithMarkup : DeliveryEnv := fun _ _ m =>
  match m with
  | some _ => SendOutcome.err "Bad Request: invalid url"
  | none => SendOutcome.ok 42

/-- A ready pending text post of server 1. -/
def basePending : PendingPost :=
  { id := 5, server_id := 1, user_id := 9, message_text := "hi", photo_id := none,
    caption := none, scheduled_time := 0, created_at := 0, status := PostStatus.pending,
    sent_at := none }

/-- Server 1 with its default configuration and one ready pending post. -/
def plainState : DBState :=
  { configs := [defaultServerConfig 1], posts := [], pending_posts := [basePending] }

/-- Server 1 with posting disabled and one ready pending post. -/
def disabledState : DBState :=
  { configs := [{ defaultServerConfig 1 with posting_enabled := false }], posts := [],
    pending_posts := [basePending] }

/-- Server 1 with one configured button and one ready pending post. -/
def buttonState : DBState :=
  { configs := [{ defaultServerConfig 1 with button1_text := "Open", button1_url := "badurl" }],
    posts := [], pending_posts := [basePending] }

/-- Server 1 with its default configuration and two ready pending posts. -/
def twoPendingState : DBState :=
  { configs := [defaultServerConfig 1], posts := [],
    pending_posts := [basePending, { basePending with id := 6, scheduled_time := 1 }] }

/-- The server-1 configuration with a parametric minimum gap, for the conflict
scenario. -/
def c4Config (g : Int) : ServerConfig := { defaultServerConfig 1 with min_time_gap := g }

/-- basePending after the pending-to-sent transition. -/
def sentPending : PendingPost := { basePending with status := PostStatus.sent }

/-! Helper lemmas. -/

theorem mem_insertByTime (p q : PendingPost) (l : List PendingPost) :
    q ∈ insertByTime p l ↔ q = p ∨ q ∈ l := by
  induction l with
  | nil => simp [insertByTime]
  | cons x xs ih =>
    unfold insertByTime
    split
    · simp [List.mem_cons]
    · simp [List.mem_cons, ih]
      tauto

theorem mem_sortByTime (q : PendingPost) (l : List PendingPost) :
    q ∈ sortByTime l ↔ q ∈ l := by
  unfold sortByTime
  induction l with
  | nil => simp
  | cons x xs ih => simp [List.foldr_cons, mem_insertByTime, ih]

theorem find?_deleteFirst (pendingId : Nat) (l : List PendingPost)
    (h : l.Pairwise fun a b => a.id ≠ b.id) :
    (deleteFirst (fun p => p.id == pendingId) l).find? (fun p => p.id == pendingId) = none := by
  induction l with
  | nil => rfl
  | cons x xs ih =>
    rw [List.pairwise_cons] at h
    unfold deleteFirst
    split
    case isTrue h1 =>
      rw [List.find?_eq_none]
      intro q hq
      have hne := h.1 q hq
      simp at h1 ⊢
      omega
    case isFalse h1 =>
      have h1f : (x.id == pendingId) = false := by simpa using h1
      simp only [List.find?_cons, h1f]
      exact ih h.2

/-! Claim C1. -/

/-- C1 counterexample: with posting disabled for server 1 and one ready
pending post, the dispatch tick still makes a delivery call, records a post,
marks the item sent and reports no error: the dispatch path is not blocked by
the posting-enabled flag, contradicting the claim that a dispatch attempt for
a disabled destination is rejected before any delivery call. -/
theorem c1_dispatch_ignores_posting_disabled :
    (get_server_config disabledState 1).posting_enabled = false ∧
    (process_pending_posts envAlwaysOk 0 ["chan"] 0 disabledState).1.attempts.length = 1 ∧
    (process_pending_posts envAlwaysOk 0 ["chan"] 0 disabledState).1.results = [(5, none)] ∧
    (process_pending_posts envAlwaysOk 0 ["chan"] 0 disabledState).1.state.posts.length = 1 ∧
    ((process_pending_posts envAlwaysOk 0 ["chan"] 0 disabledState).1.state.pending_posts.map
      (fun p => p.status)) = [PostStatus.sent] := by decide

/-- C1 amended: the posting-enabled gate exists only on the request path. A
schedule or immediate-post request through the confirm_post callback against
a destination whose posting-enabled flag is false is rejected with the
posting-disabled reply before any delivery call, with the state unchanged;
the dispatch path, by contrast, performs no posting-enabled check and
delivers a ready pending post of a disabled destination normally. -/
theorem c1_posting_disabled_gate :
    (∀ (env : DeliveryEnv) (k : Nat) (channel_ids : List String) (now : Int) (s : DBState)
      (server_id user_id : Nat) (isNowStr : Bool) (scheduled_time : Int) (content : String)
      (photo_id : Option String) (newPendingId : Nat),
      (get_server_config s server_id).posting_enabled = false →
      confirm_post env k channel_ids now s server_id user_id isNowStr scheduled_time content
          photo_id newPendingId
        = ({ state := s, reply := ConfirmReply.postingDisabled, attempts := [] }, k)) ∧
    (∀ (env : DeliveryEnv) (k : Nat) (channel_ids : List String) (now : Int) (s : DBState)
      (p : PendingPost) (mid : Nat) (cid : String),
      (get_server_config s p.server_id).posting_enabled = false →
      (∀ n c m, env n c m = SendOutcome.ok mid) →
      get_channel_id channel_ids p.server_id = some cid →
      (send_pending_post env k channel_ids now s p).1.raisedMsg = none ∧
      (send_pending_post env k channel_ids now s p).1.attempts.length = 1 ∧
      (send_pending_post env k channel_ids now s p).1.state.posts.length
        = s.posts.length + 1) := by
  constructor
  · intro env k ch now s sid uid isNow t content photo pid h
    unfold confirm_post
    rw [if_pos h]
  · intro env k ch now s p mid cid hdis henv hchan
    have h1 : outerSendLadder env k ch p.server_id (dispatchContent s p) (dispatchMarkup s p)
        = (DispatchSend.delivered (some mid),
           [(dispatchContent s p, dispatchMarkup s p)], k + 1) := by
      unfold outerSendLadder send_to_channel sendLadder
      rw [hchan, henv]
    unfold send_pending_post
    rw [h1]
    refine ⟨rfl, rfl, ?_⟩
    simp [dispatchFinalize, save_post, mark_pending_post_sent]

/-- Witness for c1_posting_disabled_gate at a concrete disabled destination. -/
theorem c1_posting_disabled_gate_witness :
    confirm_post envAlwaysOk 0 ["chan"] 0 disabledState 1 9 true 0 "hello" none 10
      = ({ state := disabledState, reply := ConfirmReply.postingDisabled, attempts := [] }, 0) ∧
    (send_pending_post envAlwaysOk 0 ["chan"] 0 disabledState basePending).1.raisedMsg = none ∧
    (send_pending_post envAlwaysOk 0 ["chan"] 0 disabledState basePending).1.attempts.length
      = 1 :=
  have h1 := c1_posting_disabled_gate.1 envAlwaysOk 0 ["chan"] 0 disabledState 1 9 true 0
    "hello" none 10 (by decide)
  have h2 := c1_posting_disabled_gate.2 envAlwaysOk 0 ["chan"] 0 disabledState basePending 77
    "chan" (by decide) (fun _ _ _ => rfl) (by decide)
  ⟨h1, h2.1, h2.2.1⟩

/-! Claim C2. -/

/-- C2 counterexample: withdrawing the pending post with id 5 through the
delete-pending callback removes the record outright; afterwards the item no
longer exists at all, contradicting the claim that it persists with a
cancelled status. -/
theorem c2_withdraw_removes_record :
    plainState.pending_posts.find? (fun p => p.id == 5) = some basePending ∧
    (handleDeletePendingCallback plainState 1 9 5).2 = true ∧
    (handleDeletePendingCallback plainState 1 9 5).1.pending_posts = [] ∧
    (handleDeletePendingCallback plainState 1 9 5).1.pending_posts.find? (fun p => p.id == 5)
      = none := by decide

/-- C2 amended: an explicit withdrawal by the author or the admin deletes the
pending record outright through Database.delete_pending_post (delete_one);
when ids are distinct, no record with the withdrawn id remains afterwards. No
cancelled status exists anywhere in the code: the only stored statuses are
pending and sent. -/
theorem c2_withdraw_is_deletion :
    (∀ (s : DBState) (adminId requester pendingId : Nat) (post : PendingPost),
      s.pending_posts.find? (fun p => p.id == pendingId) = some post →
      (post.user_id = requester ∨ requester = adminId) →
      handleDeletePendingCallback s adminId requester pendingId
        = (delete_pending_post s pendingId, true)) ∧
    (∀ (s : DBState) (pendingId : Nat),
      (s.pending_posts.Pairwise fun a b => a.id ≠ b.id) →
      (delete_pending_post s pendingId).pending_posts.find? (fun p => p.id == pendingId)
        = none) := by
  constructor
  · intro s a r pid post hfind hauth
    simp only [handleDeletePendingCallback, hfind]
    rw [if_neg]
    push_neg
    intro h1
    rcases hauth with h | h
    · exact absurd h h1
    · exact h
  · intro s pid hpw
    unfold delete_pending_post
    exact find?_deleteFirst pid s.pending_posts hpw

/-- Witness for c2_withdraw_is_deletion at a concrete state. -/
theorem c2_withdraw_is_deletion_witness :
    handleDeletePendingCallback plainState 1 9 5 = (delete_pending_post plainState 5, true) ∧
    (delete_pending_post plainState 5).pending_posts.find? (fun p => p.id == 5) = none :=
  ⟨c2_withdraw_is_deletion.1 plainState 1 9 5 basePending (by decide) (Or.inl rfl),
   c2_withdraw_is_deletion.2 plainState 5 (by decide)⟩

/-! Claim C3. -/

/-- C3: a schedule request with the literal "now" input is never rejected by
the time-validation phase, whatever the destination state: both the last-post
gap rejection and the check_time_conflict rejection are gated on the input
not being "now". -/
theorem c3_now_bypasses_conflict_check (s : DBState) (server_id : Nat) (proposed : Int) :
    scheduleTimeCheck s server_id true proposed = TimeCheckResult.accepted := by
  unfold scheduleTimeCheck
  cases h : get_last_post s server_id <;> simp

/-! Claim C4. -/

/-- C4: with one pending post at instant T1 for a destination with minimum
gap g and no delivery history, a second proposal T2 with |T1 - T2| under the
gap is rejected by check_time_conflict with suggested next-available instant
exactly T1 plus the gap. -/
theorem c4_conflict_suggestion (g T1 T2 : Int) (h : |T2 - T1| < g * 60) :
    check_time_conflict
      (save_pending_post { configs := [c4Config g], posts := [], pending_posts := [] }
        10 1 9 "content" T1 none none 0)
      1 T2 = (false, some (T1 + g * 60)) := by
  unfold check_time_conflict get_pending_posts_by_server get_server_config save_pending_post
  simp [c4Config, defaultServerConfig, sortByTime, insertByTime, findConflict, h]

/-- Witness for c4_conflict_suggestion with a 30 minute gap and proposals 100
seconds apart. -/
theorem c4_conflict_suggestion_witness :
    |(1100 : Int) - 1000| < 30 * 60 ∧
    check_time_conflict
      (save_pending_post { configs := [c4Config 30], posts := [], pending_posts := [] }
        10 1 9 "content" 1000 none none 0)
      1 1100 = (false, some 2800) :=
  ⟨by decide, c4_conflict_suggestion 30 1000 1100 (by decide)⟩

/-! Claim C5. -/

/-- C5: a pending post whose status is sent is never returned by the ready
query, and a dispatch call that raises nothing appends exactly one post
record for the item and marks it sent. -/
theorem c5_sent_terminal_unique_record :
    (∀ (s : DBState) (now : Int) (p : PendingPost),
      p.status = PostStatus.sent → p ∉ get_pending_posts_ready s now) ∧
    (∀ (env : DeliveryEnv) (k : Nat) (channel_ids : List String) (now : Int)
        (s : DBState) (p : PendingPost),
      (send_pending_post env k channel_ids now s p).1.raisedMsg = none →
      ∃ rec : PostRecord,
        (send_pending_post env k channel_ids now s p).1.state.posts = s.posts ++ [rec] ∧
        rec.server_id = p.server_id ∧
        (send_pending_post env k channel_ids now s p).1.state.pending_posts =
          updateFirst (fun q => q.id == p.id)
            (fun q => { q with status := PostStatus.sent, sent_at := some now })
            s.pending_posts) := by
  constructor
  · intro s now p hs hmem
    unfold get_pending_posts_ready at hmem
    rw [mem_sortByTime] at hmem
    have h2 := List.mem_filter.mp hmem
    simp [hs] at h2
  · intro env k channel_ids now s p h
    rcases houter : outerSendLadder env k channel_ids p.server_id
        (dispatchContent s p) (dispatchMarkup s p) with ⟨ds, atts, kf⟩
    unfold send_pending_post at h ⊢
    rw [houter] at h ⊢
    cases ds with
    | delivered mid =>
      refine ⟨⟨p.server_id, p.user_id, p.message_text, p.photo_id, mid, now⟩, ?_, rfl, ?_⟩ <;>
        simp [dispatchFinalize, save_post, mark_pending_post_sent]
    | failed e => simp at h

/-- Witness for c5_sent_terminal_unique_record: a sent item is not ready, and
a concrete successful dispatch appends one record. -/
theorem c5_sent_terminal_unique_record_witness :
    sentPending ∉ get_pending_posts_ready plainState 0 ∧
    ∃ rec : PostRecord,
      (send_pending_post envAlwaysOk 0 ["chan"] 0 plainState basePending).1.state.posts
        = plainState.posts ++ [rec] ∧
      rec.server_id = basePending.server_id ∧
      (send_pending_post envAlwaysOk 0 ["chan"] 0 plainState basePending).1.state.pending_posts
        = updateFirst (fun q => q.id == basePending.id)
            (fun q => { q with status := PostStatus.sent, sent_at := some 0 })
            plainState.pending_posts :=
  ⟨c5_sent_terminal_unique_record.1 plainState 0 sentPending rfl,
   c5_sent_terminal_unique_record.2 envAlwaysOk 0 ["chan"] 0 plainState basePending (by decide)⟩

/-! Claim C6. -/

/-- C6: when the destination has a configured button, the delivery
collaborator rejects every markup-bearing send with an invalid-url-classified
error and accepts markup-free sends, a dispatch attempt first retries once
with the same markup unchanged and then delivers the same content with no
markup; nothing is raised, and the item is recorded and finalized. -/
theorem c6_invalid_url_degrades_to_no_markup (env : DeliveryEnv) (k : Nat)
    (channel_ids : List String) (now : Int) (s : DBState) (p : PendingPost) (cid : String)
    (hchan : get_channel_id channel_ids p.server_id = some cid)
    (hbtns : buildButtons (get_server_config s p.server_id) ≠ [])
    (herr : ∀ (n : Nat) (c : String) (m : Markup),
      ∃ e, env n c (some m) = SendOutcome.err e ∧ isInvalidUrlError e = true)
    (hok : ∀ (n : Nat) (c : String), ∃ mid, env n c none = SendOutcome.ok mid) :
    (send_pending_post env k channel_ids now s p).1.raisedMsg = none ∧
    (send_pending_post env k channel_ids now s p).1.attempts.map Prod.snd
      = [some (buildButtons (get_server_config s p.server_id)),
         some (buildButtons (get_server_config s p.server_id)), none] ∧
    (send_pending_post env k channel_ids now s p).1.attempts.map Prod.fst
      = [dispatchContent s p, dispatchContent s p, dispatchContent s p] ∧
    ((send_pending_post env k channel_ids now s p).1.channelMessageId).isSome = true ∧
    (send_pending_post env k channel_ids now s p).1.state.posts.length
      = s.posts.length + 1 := by
  have hm : dispatchMarkup s p = some (buildButtons (get_server_config s p.server_id)) := by
    simp only [dispatchMarkup]
    rw [if_neg]
    simpa using hbtns
  obtain ⟨e1, he1, hi1⟩ :=
    herr k (dispatchContent s p) (buildButtons (get_server_config s p.server_id))
  obtain ⟨e2, he2, hi2⟩ :=
    herr (k + 1) (dispatchContent s p) (buildButtons (get_server_config s p.server_id))
  obtain ⟨mid, hmid⟩ := hok (k + 2) (dispatchContent s p)
  have hlad : sendLadder env k (dispatchContent s p) (dispatchMarkup s p)
      = (SendResult.sent mid,
         [(dispatchContent s p, dispatchMarkup s p),
          (dispatchContent s p, dispatchMarkup s p),
          (dispatchContent s p, none)], k + 3) := by
    unfold sendLadder
    rw [hm]
    simp only [he1, hi1, he2, hmid, if_true]
  have h1 : outerSendLadder env k channel_ids p.server_id
      (dispatchContent s p) (dispatchMarkup s p)
      = (DispatchSend.delivered (some mid),
         [(dispatchContent s p, dispatchMarkup s p),
          (dispatchContent s p, dispatchMarkup s p),
          (dispatchContent s p, none)], k + 3) := by
    unfold outerSendLadder send_to_channel
    rw [hchan, hlad]
  unfold send_pending_post
  rw [h1]
  refine ⟨rfl, ?_, rfl, rfl, ?_⟩
  · simp [dispatchFinalize, hm]
  · simp [dispatchFinalize, save_post, mark_pending_post_sent]

/-- Witness for c6_invalid_url_degrades_to_no_markup with a concrete
collaborator that rejects markup-bearing sends. -/
theorem c6_invalid_url_degrades_to_no_markup_witness :
    (send_pending_post envInvalidUrlWithMarkup 0 ["chan"] 0 buttonState basePending).1.raisedMsg
      = none ∧
    (send_pending_post envInvalidUrlWithMarkup 0 ["chan"] 0 buttonState
        basePending).1.attempts.map Prod.snd
      = [some (buildButtons (get_server_config buttonState 1)),
         some (buildButtons (get_server_config buttonState 1)), none] :=
  have h := c6_invalid_url_degrades_to_no_markup envInvalidUrlWithMarkup 0 ["chan"] 0
    buttonState basePending "chan" (by decide) (by decide)
    (fun n c m => ⟨"Bad Request: invalid url", rfl, by decide⟩)
    (fun n c => ⟨42, rfl⟩)
  ⟨h.1, h.2.1⟩

/-! Claim C7. -/

/-- C7 counterexample: a transient delivery failure (the timeout message) is
not classified invalid-url, so a dispatch attempt makes exactly one delivery
call with no in-tick retry; the exception is caught by the tick loop, which
processes the next ready item and leaves the state unchanged, the items
remaining pending. This contradicts the claim that a Transient failure
participates in the retry ladder. -/
theorem c7_transient_not_retried :
    isInvalidUrlError "Timed out" = false ∧
    (send_pending_post envTimedOut 0 ["chan"] 5 twoPendingState basePending).1.attempts.length
      = 1 ∧
    (send_pending_post envTimedOut 0 ["chan"] 5 twoPendingState basePending).1.raisedMsg
      = some "Timed out" ∧
    (process_pending_posts envTimedOut 0 ["chan"] 5 twoPendingState).1.results
      = [(5, some "Timed out"), (6, some "Timed out")] ∧
    (process_pending_posts envTimedOut 0 ["chan"] 5 twoPendingState).1.attempts.length = 2 ∧
    (process_pending_posts envTimedOut 0 ["chan"] 5 twoPendingState).1.state
      = twoPendingState := by decide

/-- C7 amended: only a failure whose message is classified invalid-url enters
the in-tick retry ladder; every other failure, transient ones included (as
well as not-found and other), aborts the dispatch attempt after a single
delivery call, the exception propagates to the tick loop, and the item stays
pending with the state unchanged for the next tick. -/
theorem c7_only_invalid_url_retries (env : DeliveryEnv) (k : Nat)
    (channel_ids : List String) (now : Int) (s : DBState) (p : PendingPost)
    (e : String) (cid : String)
    (hchan : get_channel_id channel_ids p.server_id = some cid)
    (henv : ∀ n c m, env n c m = SendOutcome.err e)
    (hinv : isInvalidUrlError e = false) :
    (send_pending_post env k channel_ids now s p).1.attempts.length = 1 ∧
    ((send_pending_post env k channel_ids now s p).1.raisedMsg).isSome = true ∧
    (send_pending_post env k channel_ids now s p).1.state = s := by
  have hlad : sendLadder env k (dispatchContent s p) (dispatchMarkup s p)
      = (SendResult.raised (if isChatNotFound e then channelNotFoundText else e),
         [(dispatchContent s p, dispatchMarkup s p)], k + 1) := by
    unfold sendLadder
    simp only [henv, hinv]
    simp only [Bool.false_eq_true, if_false]
    split <;> rfl
  have hinv2 : isInvalidUrlError (if isChatNotFound e then channelNotFoundText else e)
      = false := by
    split
    · decide
    · exact hinv
  have h1 : outerSendLadder env k channel_ids p.server_id
      (dispatchContent s p) (dispatchMarkup s p)
      = (DispatchSend.failed (if isChatNotFound e then channelNotFoundText else e),
         [(dispatchContent s p, dispatchMarkup s p)], k + 1) := by
    unfold outerSendLadder send_to_channel
    rw [hchan, hlad]
    simp [hinv2]
  unfold send_pending_post
  rw [h1]
  exact ⟨rfl, rfl, rfl⟩

/-- Witness for c7_only_invalid_url_retries with a concrete transient
failure. -/
theorem c7_only_invalid_url_retries_witness :
    (send_pending_post envTimedOut 0 ["chan"] 0 plainState basePending).1.attempts.length = 1 ∧
    ((send_pending_post envTimedOut 0 ["chan"] 0 plainState basePending).1.raisedMsg).isSome
      = true ∧
    (send_pending_post envTimedOut 0 ["chan"] 0 plainState basePending).1.state = plainState :=
  c7_only_invalid_url_retries envTimedOut 0 ["chan"] 0 plainState basePending "Timed out"
    "chan" (by decide) (fun _ _ _ => rfl) (by decide)

/-! Claim C8. -/

/-- C8: a bare HH:MM input resolves to that wall-clock time today when that
instant is strictly after the current instant and to exactly one calendar day
later otherwise; the resolved instant is always strictly after the current
instant, so this branch can never produce a past instant. -/
theorem c8_bare_time_rolls_forward (day micro hh mm : Nat)
    (hmicro : micro < usPerDay) (hh24 : hh < 24) (hmm : mm < 60) :
    (istNowInstant day micro < day * usPerDay + (hh * 3600 + mm * 60) * 1000000 →
      resolveTimeOnly day micro hh mm = day * usPerDay + (hh * 3600 + mm * 60) * 1000000) ∧
    (day * usPerDay + (hh * 3600 + mm * 60) * 1000000 ≤ istNowInstant day micro →
      resolveTimeOnly day micro hh mm
        = day * usPerDay + (hh * 3600 + mm * 60) * 1000000 + usPerDay) ∧
    istNowInstant day micro < resolveTimeOnly day micro hh mm := by
  simp only [resolveTimeOnly, istNowInstant, usPerDay] at hmicro ⊢
  refine ⟨fun h => ?_, fun h => ?_, ?_⟩ <;> split <;> omega

/-- Witness for c8_bare_time_rolls_forward: input 09:00 at current time
09:05 rolls to the next day and stays strictly in the future. -/
theorem c8_bare_time_rolls_forward_witness :
    resolveTimeOnly 20478 32700000000 9 0 = 20478 * usPerDay + 32400000000 + usPerDay ∧
    istNowInstant 20478 32700000000 < resolveTimeOnly 20478 32700000000 9 0 :=
  have h := c8_bare_time_rolls_forward 20478 32700000000 9 0 (by decide) (by decide) (by decide)
  ⟨h.2.1 (by decide), h.2.2⟩

/-! Claim C9. -/

/-- C9: for a valid explicit date+time input, the request fails with the
past-time error exactly when the resolved instant is strictly before the
current instant; a resolved instant equal to the current instant is
accepted. -/
theorem c9_explicit_past_time_error (now : Int) (d mo y hh mm : Nat)
    (hv : validDate y mo d = true) :
    (parseDateTimeInput now d mo y hh mm = Except.error TimeParseError.pastTime ↔
      istCivilInstant y mo d hh mm < now) ∧
    (istCivilInstant y mo d hh mm = now →
      parseDateTimeInput now d mo y hh mm
        = Except.ok (istCivilInstant y mo d hh mm - istOffsetUs)) := by
  unfold parseDateTimeInput
  rw [if_pos hv]
  refine ⟨⟨fun h => ?_, fun h => by rw [if_pos h]⟩, fun he => ?_⟩
  · by_contra hc
    rw [if_neg hc] at h
    exact absurd h (by simp)
  · rw [if_neg (by omega)]

/-- Witness for c9_explicit_past_time_error: 25/01/2026 14:30 submitted at
exactly that instant is accepted. -/
theorem c9_explicit_past_time_error_witness :
    validDate 2026 1 25 = true ∧
    parseDateTimeInput (istCivilInstant 2026 1 25 14 30) 25 1 2026 14 30
      = Except.ok (istCivilInstant 2026 1 25 14 30 - istOffsetUs) :=
  ⟨by decide,
   (c9_explicit_past_time_error (istCivilInstant 2026 1 25 14 30) 25 1 2026 14 30
     (by decide)).2 rfl⟩

/-! Claim C10. -/

/-- C10: when the channel reference for the destination of a ready item is
unconfigured, the delivery call returns no message reference without raising,
yet the dispatch still records a post with no delivered-message identity,
marks the item sent and attempts the author success notification. -/
theorem c10_missing_channel_marks_sent (env : DeliveryEnv) (k : Nat)
    (channel_ids : List String) (now : Int) (s : DBState) (p : PendingPost)
    (hchan : get_channel_id channel_ids p.server_id = none) :
    (send_pending_post env k channel_ids now s p).1.raisedMsg = none ∧
    (send_pending_post env k channel_ids now s p).1.attempts = [] ∧
    (send_pending_post env k channel_ids now s p).1.channelMessageId = none ∧
    (send_pending_post env k channel_ids now s p).1.notifiedUser = true ∧
    (send_pending_post env k channel_ids now s p).1.state =
      mark_pending_post_sent
        (save_post s p.server_id p.user_id p.message_text none p.photo_id now) p.id now := by
  have h1 : outerSendLadder env k channel_ids p.server_id
      (dispatchContent s p) (dispatchMarkup s p) = (DispatchSend.delivered none, [], k) := by
    unfold outerSendLadder send_to_channel
    rw [hchan]
  unfold send_pending_post
  rw [h1]
  exact ⟨rfl, rfl, rfl, rfl, rfl⟩

/-- Witness for c10_missing_channel_marks_sent with an empty channel list. -/
theorem c10_missing_channel_marks_sent_witness :
    get_channel_id [] 1 = none ∧
    (send_pending_post envAlwaysOk 0 [] 0 plainState basePending).1.raisedMsg = none ∧
    (send_pending_post envAlwaysOk 0 [] 0 plainState basePending).1.attempts = [] ∧
    (send_pending_post envAlwaysOk 0 [] 0 plainState basePending).1.notifiedUser = true :=
  have h := c10_missing_channel_marks_sent envAlwaysOk 0 [] 0 plainState basePending (by decide)
  ⟨by decide, h.1, h.2.1, h.2.2.2.1⟩

end TGBot
